import Mathlib

/-
Verification of the amplitude-migration event pipeline
(src/src/amplitude_migrator/core.py and time_utils.py).

The Python code is shallowly embedded: JSON-like runtime values become the
inductive type PyVal, Python dicts become insertion-ordered association
lists with unique keys, machine integers are unbounded Int exactly as in
Python, and every fallible operation returns an Option or Except value.
Python in-place mutation of the input event (the deny-key pops near the
end of transform_event act through an alias on the user_properties dict)
is made explicit: transform_event returns both its result and the state
of the input event after the call.
-/

set_option linter.unusedVariables false

namespace AmplitudeMigration

/-- Python-style JSON values as handled by the migrator: None, bool, int,
float (modelled as an exact rational; the pipeline only moves these values
around and compares them), str, list and dict (string-keyed, insertion
ordered, unique keys as produced by the JSON parser). -/
inductive PyVal where
  | vnone
  | vbool (b : Bool)
  | vint (n : Int)
  | vfloat (q : ℚ)
  | vstr (s : String)
  | vlist (xs : List PyVal)
  | vdict (d : List (String × PyVal))

/-- A Python dict with string keys, as an insertion-ordered association list. -/
abbrev PyDict := List (String × PyVal)

/-- Association-list lookup: first entry with the given key (Python d.get(k)). -/
def alookup {α : Type} (d : List (String × α)) (k : String) : Option α :=
  match d with
  | [] => Option.none
  | (k', v) :: rest => if k' = k then some v else alookup rest k

/-- Python d[k] = v on a unique-key dict: update in place if present, else append. -/
def ainsert {α : Type} (d : List (String × α)) (k : String) (v : α) : List (String × α) :=
  match d with
  | [] => [(k, v)]
  | (k', v') :: rest => if k' = k then (k, v) :: rest else (k', v') :: ainsert rest k v

/-- Python d.pop(k, None): remove the entry with the given key. -/
def aerase {α : Type} (d : List (String × α)) (k : String) : List (String × α) :=
  d.filter (fun kv => kv.1 ≠ k)

/-- Python `k in d` for dicts. -/
def amem {α : Type} (d : List (String × α)) (k : String) : Bool :=
  d.any (fun kv => kv.1 = k)

/-- Python dict lookup returning the value, d.get(k). -/
def dget (d : PyDict) (k : String) : Option PyVal := alookup d k

/-- Python truthiness bool(v) for the modelled values. -/
def pyTruthy : PyVal → Bool
  | .vnone => false
  | .vbool b => b
  | .vint n => decide (n ≠ 0)
  | .vfloat q => decide (q ≠ 0)
  | .vstr s => decide (s ≠ "")
  | .vlist xs => !xs.isEmpty
  | .vdict d => !d.isEmpty

mutual

/-- Python equality (==) on the modelled values: numbers (bool included,
True == 1) compare by value across int and float; lists compare
elementwise; dicts compare pairwise in order (the pipeline never compares
reordered dicts). -/
def pyEq : PyVal → PyVal → Bool
  | .vnone, .vnone => true
  | .vbool a, .vbool b => a == b
  | .vbool a, .vint m => decide ((if a then (1 : Int) else 0) = m)
  | .vbool a, .vfloat q => decide ((if a then (1 : ℚ) else 0) = q)
  | .vint n, .vbool b => decide (n = (if b then (1 : Int) else 0))
  | .vint n, .vint m => decide (n = m)
  | .vint n, .vfloat q => decide ((n : ℚ) = q)
  | .vfloat p, .vbool b => decide (p = (if b then (1 : ℚ) else 0))
  | .vfloat p, .vint m => decide (p = (m : ℚ))
  | .vfloat p, .vfloat q => decide (p = q)
  | .vstr a, .vstr b => a == b
  | .vlist xs, .vlist ys => pyEqList xs ys
  | .vdict a, .vdict b => pyEqDict a b
  | _, _ => false

/-- Elementwise Python equality of lists. -/
def pyEqList : List PyVal → List PyVal → Bool
  | [], [] => true
  | x :: xs, y :: ys => pyEq x y && pyEqList xs ys
  | _, _ => false

/-- Pairwise Python equality of dicts in insertion order. -/
def pyEqDict : List (String × PyVal) → List (String × PyVal) → Bool
  | [], [] => true
  | (k1, v1) :: xs, (k2, v2) :: ys => k1 == k2 && pyEq v1 v2 && pyEqDict xs ys
  | _, _ => false

end

/-- Python str(v). The pipeline only formats scalars (for the condition
operators contains and not_contains and the str coercion); quoting inside
list and dict reprs is not reproduced since no rule under verification
formats compound values. -/
def pyStr : PyVal → String
  | .vnone => "None"
  | .vbool b => if b then "True" else "False"
  | .vint n => toString n
  | .vfloat q => toString q.num ++ (if q.den = 1 then ".0" else "/" ++ toString q.den)
  | .vstr s => s
  | .vlist _ => "[...]"
  | .vdict _ => "{...}"

/-- Truncation toward zero, as Python int(float) does. -/
def truncQ (q : ℚ) : Int := if q < 0 then ⌈q⌉ else ⌊q⌋

/-
String scalpels. The standard String functions (toLower, trim, splitOn)
recurse on byte positions and are opaque to kernel reduction, so the same
operations are stated here on the underlying character lists; they agree
with Python str.lower, str.strip and str.split for the ASCII data the
pipeline handles.
-/

/-- Whitespace for Python str.strip of the data at hand. -/
def isPySpace (c : Char) : Bool :=
  c = ' ' ∨ c = '\t' ∨ c = '\n' ∨ c = '\r'

/-- Python s.strip(). -/
def pyStrip (s : String) : String :=
  String.mk (((s.data.dropWhile isPySpace).reverse.dropWhile isPySpace).reverse)

/-- Python s.lower(). -/
def pyLower (s : String) : String :=
  String.mk (s.data.map Char.toLower)

/-- Split a character list on a separator character (Python str.split). -/
def splitOnChar (l : List Char) (c : Char) : List (List Char) :=
  match l with
  | [] => [[]]
  | x :: t =>
    if x = c then [] :: splitOnChar t c
    else
      match splitOnChar t c with
      | h :: r => (x :: h) :: r
      | [] => [[x]]

/-- Python s.split(sep) for a one-character separator. -/
def pySplit (s : String) (c : Char) : List String :=
  (splitOnChar s.data c).map String.mk

/-- The value of a digit list, when non-empty and all digits. -/
def digitsToNat (l : List Char) : Option Nat :=
  if l ≠ [] ∧ l.all Char.isDigit then
    some (l.foldl (fun n c => n * 10 + (c.toNat - 48)) 0)
  else Option.none

/-- Python float(s) on a plain decimal string: optional surrounding
whitespace, optional sign, digits with an optional fractional part.
Exponent, inf and nan literals are outside the rules under verification
and yield failure here. -/
def pyFloatOfString (s : String) : Option ℚ :=
  let t := ((s.data.dropWhile isPySpace).reverse.dropWhile isPySpace).reverse
  let (sgn, u) : ℚ × List Char :=
    match t with
    | c :: rest => if c = '-' then (-1, rest) else if c = '+' then (1, rest) else (1, t)
    | [] => (1, t)
  match splitOnChar u '.' with
  | [a] => (digitsToNat a).map (fun n => sgn * (n : ℚ))
  | [a, b] =>
    if (a ++ b) ≠ [] ∧ a.all Char.isDigit ∧ b.all Char.isDigit then
      some (sgn * (((a ++ b).foldl (fun n c => n * 10 + (c.toNat - 48)) 0 : Nat) : ℚ)
        / ((10 : ℚ) ^ b.length))
    else Option.none
  | _ => Option.none

/-- Python int(s) on a string: optional whitespace and sign, decimal digits
only (float-looking strings raise ValueError, hence Option.none). -/
def pyIntOfString (s : String) : Option Int :=
  let t := ((s.data.dropWhile isPySpace).reverse.dropWhile isPySpace).reverse
  let (sgn, u) : Int × List Char :=
    match t with
    | c :: rest => if c = '-' then (-1, rest) else if c = '+' then (1, rest) else (1, t)
    | [] => (1, t)
  (digitsToNat u).map (fun n => sgn * (n : Int))

/-- Python float(v): numbers pass through (bool counts as 0 or 1), strings
are parsed, anything else raises (Option.none). -/
def pyFloatOf : PyVal → Option ℚ
  | .vint n => some (n : ℚ)
  | .vfloat q => some q
  | .vbool b => some (if b then 1 else 0)
  | .vstr s => pyFloatOfString s
  | _ => Option.none

/-- Python int(v): ints pass through, floats truncate toward zero, bools
count as 0 or 1, strings parse as integer literals, anything else raises
(Option.none). Used for int(orig_time) in transform_event. -/
def pyIntOfVal : PyVal → Option Int
  | .vint n => some n
  | .vfloat q => some (truncQ q)
  | .vbool b => some (if b then 1 else 0)
  | .vstr s => pyIntOfString s
  | _ => Option.none

/-- Numeric reading of a range bound: comparison of a float with a
non-number raises TypeError in Python, modelled as Option.none. -/
def pyNum : PyVal → Option ℚ
  | .vint n => some (n : ℚ)
  | .vfloat q => some q
  | .vbool b => some (if b then 1 else 0)
  | _ => Option.none

/-- Whether the first character list occurs contiguously in the second. -/
def charsInside (n h : List Char) : Bool :=
  match h with
  | [] => n.isEmpty
  | _ :: t => n.isPrefixOf h || charsInside n t

/-- Substring test on the underlying character lists. -/
def strContains (hay needle : String) : Bool :=
  charsInside needle.toList hay.toList

/-
The source evaluates derived-property expressions with
eval(expr, ("__builtins__": ()), ("value": value)); its own comment says
"Only arithmetic and comparisons on `value` are expected. Builtins are
disabled." That documented fragment is embedded as an AST over the single
variable `value`; evaluation failure (TypeError and friends) is
Option.none, which _apply_expr turns into "keep the original value".
-/

/-- The restricted expression fragment used by derived-property rules. -/
inductive Expr where
  | value
  | lit (v : PyVal)
  | add (a b : Expr)
  | sub (a b : Expr)
  | mul (a b : Expr)
  | lt (a b : Expr)
  | le (a b : Expr)
  | gt (a b : Expr)
  | ge (a b : Expr)
  | eqOp (a b : Expr)
  | neOp (a b : Expr)

/-- Python + on the modelled values: numeric addition (int stays int,
float spreads), string and list concatenation; mixing raises. -/
def pyAdd : PyVal → PyVal → Option PyVal
  | .vint a, .vint b => some (.vint (a + b))
  | .vbool a, .vint b => some (.vint ((if a then 1 else 0) + b))
  | .vint a, .vbool b => some (.vint (a + (if b then 1 else 0)))
  | .vbool a, .vbool b => some (.vint ((if a then 1 else 0) + (if b then 1 else 0)))
  | .vfloat a, .vfloat b => some (.vfloat (a + b))
  | .vfloat a, .vint b => some (.vfloat (a + (b : ℚ)))
  | .vint a, .vfloat b => some (.vfloat ((a : ℚ) + b))
  | .vfloat a, .vbool b => some (.vfloat (a + (if b then 1 else 0)))
  | .vbool a, .vfloat b => some (.vfloat ((if a then 1 else 0) + b))
  | .vstr a, .vstr b => some (.vstr (a ++ b))
  | .vlist a, .vlist b => some (.vlist (a ++ b))
  | _, _ => Option.none

/-- Python - on the modelled values (numeric only). -/
def pySub : PyVal → PyVal → Option PyVal
  | .vint a, .vint b => some (.vint (a - b))
  | .vbool a, .vint b => some (.vint ((if a then 1 else 0) - b))
  | .vint a, .vbool b => some (.vint (a - (if b then 1 else 0)))
  | .vbool a, .vbool b => some (.vint ((if a then 1 else 0) - (if b then 1 else 0)))
  | .vfloat a, .vfloat b => some (.vfloat (a - b))
  | .vfloat a, .vint b => some (.vfloat (a - (b : ℚ)))
  | .vint a, .vfloat b => some (.vfloat ((a : ℚ) - b))
  | .vfloat a, .vbool b => some (.vfloat (a - (if b then 1 else 0)))
  | .vbool a, .vfloat b => some (.vfloat ((if a then 1 else 0) - b))
  | _, _ => Option.none

/-- Python * on the modelled values (numeric only; sequence repetition is
not used by any rule under verification). -/
def pyMul : PyVal → PyVal → Option PyVal
  | .vint a, .vint b => some (.vint (a * b))
  | .vbool a, .vint b => some (.vint ((if a then 1 else 0) * b))
  | .vint a, .vbool b => some (.vint (a * (if b then 1 else 0)))
  | .vbool a, .vbool b => some (.vint ((if a then 1 else 0) * (if b then 1 else 0)))
  | .vfloat a, .vfloat b => some (.vfloat (a * b))
  | .vfloat a, .vint b => some (.vfloat (a * (b : ℚ)))
  | .vint a, .vfloat b => some (.vfloat ((a : ℚ) * b))
  | .vfloat a, .vbool b => some (.vfloat (a * (if b then 1 else 0)))
  | .vbool a, .vfloat b => some (.vfloat ((if a then 1 else 0) * b))
  | _, _ => Option.none

/-- Python < on the modelled values: numbers by value, strings
lexicographically; mixing raises TypeError. -/
def pyLtB : PyVal → PyVal → Option Bool
  | .vstr a, .vstr b => some (decide (a < b))
  | a, b =>
    match pyNum a, pyNum b with
    | some x, some y => some (decide (x < y))
    | _, _ => Option.none

/-- Evaluate an expression from the restricted fragment with `value` bound.
Option.none is a raised exception. -/
def evalExpr : Expr → PyVal → Option PyVal
  | .value, v => some v
  | .lit c, _ => some c
  | .add a b, v => do pyAdd (← evalExpr a v) (← evalExpr b v)
  | .sub a b, v => do pySub (← evalExpr a v) (← evalExpr b v)
  | .mul a b, v => do pyMul (← evalExpr a v) (← evalExpr b v)
  | .lt a b, v => do (pyLtB (← evalExpr a v) (← evalExpr b v)).map PyVal.vbool
  | .le a b, v => do
    let x ← evalExpr a v
    let y ← evalExpr b v
    match pyLtB y x with
    | some r => some (.vbool (!r))
    | Option.none => Option.none
  | .gt a b, v => do (pyLtB (← evalExpr b v) (← evalExpr a v)).map PyVal.vbool
  | .ge a b, v => do
    let x ← evalExpr a v
    let y ← evalExpr b v
    match pyLtB x y with
    | some r => some (.vbool (!r))
    | Option.none => Option.none
  | .eqOp a b, v => do some (.vbool (pyEq (← evalExpr a v) (← evalExpr b v)))
  | .neOp a b, v => do some (.vbool (!pyEq (← evalExpr a v) (← evalExpr b v)))

/-
Raw source events. The input schema (one NDJSON record) has required
event_type, dict-valued event_properties, user_properties and groups,
string identity fields, an integer client time in milliseconds and two
textual server timestamps. The extra field carries the remaining
TOP_LEVEL_PASSTHROUGH fields present on the record (app_version, library,
platform, os and device fields, geo fields, revenue fields, advertising
ids, event_id, session_id, insert_id); other top-level keys are never
read by the pipeline and are omitted from the model.
-/

/-- A raw Amplitude export event. -/
structure RawEvent where
  event_type : String
  event_properties : Option PyDict := Option.none
  user_properties : Option PyDict := Option.none
  groups : Option PyVal := Option.none
  user_id : Option String := Option.none
  device_id : Option String := Option.none
  time : Option Int := Option.none
  server_received_time : Option String := Option.none
  server_upload_time : Option String := Option.none
  extra : PyDict := []

/-- The outbound record built by transform_event. The dict written by the
source always carries event_type, event_properties, user_id, device_id and
time; user_properties is present when the source event or the fallback
snapshot supplied one (or passed through); groups and the extra fields
pass through verbatim. -/
structure TransformedEvent where
  event_type : String
  event_properties : PyDict
  user_id : Option String
  device_id : Option String
  time : Int
  user_properties : Option PyDict
  groups : Option PyVal
  extra : PyDict

/-- Python `a or b` on int-or-None operands: the left value when truthy
(non-zero), otherwise the right operand. -/
def pyOrInt (a : Option Int) (b : Int) : Int :=
  match a with
  | some n => if n ≠ 0 then n else b
  | Option.none => b

/-- Python `a or b` on general value-or-None operands, keeping the right
operand as is (it may itself be a falsy value, exactly as in Python). -/
def pyOrVal (a : Option PyVal) (b : Option PyVal) : Option PyVal :=
  match a with
  | some v => if pyTruthy v then some v else b
  | Option.none => b

/-
time_utils.choose_time_ms. parse_iso_to_ms delegates the actual parsing
to datetime.fromisoformat of the standard library; that external parser is
a parameter here (parse_iso), and the current wall clock int(time.time()
times 1000) is the parameter now_ms. Everything else is the source logic:
the client time must be an int to count, each server time is parsed,
a falsy (empty) strategy falls back to the default, and the branches
chain with Python `or`, so a zero timestamp falls through.
-/

/-- time_utils.choose_time_ms with the ISO parser and the wall clock as
explicit parameters. -/
def choose_time_ms (parse_iso : String → Option Int) (now_ms : Int)
    (evt : RawEvent) (strategy : String) : Int :=
  let client_ms : Option Int := evt.time
  let srv_recv_ms : Option Int := evt.server_received_time.bind parse_iso
  let srv_upld_ms : Option Int := evt.server_upload_time.bind parse_iso
  let s := pyLower (if strategy = "" then "prefer_client_fallback_server_received" else strategy)
  if s = "client" then
    match client_ms with
    | some n => n
    | Option.none => now_ms
  else if s = "server_received" then pyOrInt srv_recv_ms (pyOrInt client_ms now_ms)
  else if s = "server_upload" then pyOrInt srv_upld_ms (pyOrInt client_ms now_ms)
  else if s = "prefer_client_fallback_server_received" then
    pyOrInt client_ms (pyOrInt srv_recv_ms now_ms)
  else if s = "prefer_client_fallback_server_upload" then
    pyOrInt client_ms (pyOrInt srv_upld_ms now_ms)
  else pyOrInt client_ms (pyOrInt srv_recv_ms (pyOrInt srv_upld_ms now_ms))

/-- Python evt.get(p) for a top-level field of the raw event. -/
def evtGet (evt : RawEvent) (p : String) : Option PyVal :=
  if p = "event_type" then some (.vstr evt.event_type)
  else if p = "event_properties" then evt.event_properties.map PyVal.vdict
  else if p = "user_properties" then evt.user_properties.map PyVal.vdict
  else if p = "groups" then evt.groups
  else if p = "user_id" then evt.user_id.map PyVal.vstr
  else if p = "device_id" then evt.device_id.map PyVal.vstr
  else if p = "time" then evt.time.map PyVal.vint
  else if p = "server_received_time" then evt.server_received_time.map PyVal.vstr
  else if p = "server_upload_time" then evt.server_upload_time.map PyVal.vstr
  else alookup evt.extra p

/-- Walk the remaining dotted-path parts: each step requires the current
value to be a dict containing the key, else the whole resolution is None
(vnone). -/
def walkVal : PyVal → List String → PyVal
  | v, [] => v
  | .vdict d, p :: rest =>
    match dget d p with
    | some v => walkVal v rest
    | Option.none => .vnone
  | _, _ :: _ => .vnone

/-- core._get_by_path: resolve a dotted path such as event_properties.foo,
user_properties.bar or a top-level field like device_id; a falsy path or
a missing step yields None (vnone). A first part naming event_properties
or user_properties starts from that dict (an absent dict counts as empty,
per `evt.get(p) or ()`). -/
def _get_by_path (evt : RawEvent) (path : String) : PyVal :=
  if path = "" then .vnone
  else
    match pySplit path '.' with
    | [] => .vnone
    | p :: rest =>
      if p = "event_properties" then walkVal (.vdict (evt.event_properties.getD [])) rest
      else if p = "user_properties" then walkVal (.vdict (evt.user_properties.getD [])) rest
      else
        match evtGet evt p with
        | some v => walkVal v rest
        | Option.none => .vnone

/-- Whether a value is Python None. -/
def isVNone : PyVal → Bool
  | .vnone => true
  | _ => false

/-- The _is_empty helper of _match_conditions: None, the empty string and
the empty list count as empty. -/
def _is_empty : PyVal → Bool
  | .vnone => true
  | .vstr s => s == ""
  | .vlist xs => xs.isEmpty
  | _ => false

/-- Python membership of a value in set(cmp) where cmp is a string: the
set of its single-character strings. -/
def pyMemStrChars (val : PyVal) (s : String) : Bool :=
  match val with
  | .vstr c => s.toList.any (fun ch => c == String.mk [ch])
  | _ => false

/-- Python membership of a value in a list, by Python equality. -/
def pyMem (val : PyVal) (xs : List PyVal) : Bool :=
  xs.any (fun x => pyEq val x)

/-- Whether a value is unhashable in Python (set membership raises). -/
def pyUnhashable : PyVal → Bool
  | .vlist _ => true
  | .vdict _ => true
  | _ => false

/-- One operator test of _match_conditions: the result True means this
operator is satisfied; any raised exception inside the source loop is
caught and returns False for the whole condition, so failures map to
false here. An unknown operator fails closed. -/
def opOk (val : PyVal) (op : String) (cmp : PyVal) : Bool :=
  if op = "not" then !pyEq val cmp
  else if op = "in" then
    match cmp with
    | .vnone => false
    | .vlist xs =>
      if xs.any pyUnhashable ∨ pyUnhashable val then false else pyMem val xs
    | .vstr s => if pyUnhashable val then false else pyMemStrChars val s
    | .vdict d =>
      if pyUnhashable val then false
      else
        match val with
        | .vstr k => amem d k
        | _ => false
    | _ => false
  else if op = "not_in" then
    match cmp with
    | .vnone => true
    | .vlist xs =>
      if xs.any pyUnhashable ∨ pyUnhashable val then false else !pyMem val xs
    | .vstr s => if pyUnhashable val then false else !pyMemStrChars val s
    | .vdict d =>
      if pyUnhashable val then false
      else
        match val with
        | .vstr k => !amem d k
        | _ => true
    | _ => false
  else if op = "exists" then (!isVNone val) == pyTruthy cmp
  else if op = "empty" then _is_empty val == pyTruthy cmp
  else if op = "range" then
    match cmp with
    | .vlist [lo, hi] =>
      match val with
      | .vnone => false
      | _ =>
        match pyFloatOf val, pyNum lo, pyNum hi with
        | some q, some lq, some hq => decide (lq ≤ q ∧ q ≤ hq)
        | _, _, _ => false
    | _ => false
  else if op = "contains" then
    match val, cmp with
    | .vnone, _ => false
    | _, .vnone => false
    | _, .vlist ws => ws.any (fun w => strContains (pyLower (pyStr val)) (pyLower (pyStr w)))
    | _, _ => strContains (pyLower (pyStr val)) (pyLower (pyStr cmp))
  else if op = "not_contains" then
    match val, cmp with
    | .vnone, _ => true
    | _, .vnone => true
    | _, .vlist ws => !ws.any (fun w => strContains (pyLower (pyStr val)) (pyLower (pyStr w)))
    | _, _ => !strContains (pyLower (pyStr val)) (pyLower (pyStr cmp))
  else false

/-- All operators of an operator object must hold. -/
def opsHold (val : PyVal) : List (String × PyVal) → Bool
  | [] => true
  | (op, cmp) :: rest => opOk val op cmp && opsHold val rest

/-- One path/expected entry of a condition mapping: a dotted path resolves
through _get_by_path, a plain one through evt.get; a dict expected value
is the operator form, anything else is plain Python equality. -/
def condHolds (evt : RawEvent) (path : String) (expected : PyVal) : Bool :=
  let val := if path.data.contains '.' then _get_by_path evt path
             else (evtGet evt path).getD .vnone
  match expected with
  | .vdict ops => opsHold val ops
  | _ => pyEq val expected

/-- core._match_conditions: all top-level entries of the condition mapping
are ANDed. -/
def _match_conditions (evt : RawEvent) (conditions : PyDict) : Bool :=
  match conditions with
  | [] => true
  | (path, expected) :: rest => condHolds evt path expected && _match_conditions evt rest

/-- core.should_keep_event: deny first (only when the deny list is
non-empty), then the allow list, both on the event type carried by the
event. -/
def should_keep_event (evt : RawEvent) (allow deny : List String) : Bool :=
  let et := evt.event_type
  if deny ≠ [] ∧ et ∈ deny then false
  else if allow ≠ [] ∧ et ∉ allow then false
  else true

/-- core.rename_event_type: rename_map.get(et, et). -/
def rename_event_type (et : String) (rename_map : List (String × String)) : String :=
  (alookup rename_map et).getD et

/-- core.filter_props_for_event: keep-map lookup by event type, falling
back to the wildcard entry, falling back to keep-all; a wildcard keep list
copies the dict, otherwise the kept keys are collected in keep-list order;
then the per-event property rename map is applied entrywise. -/
def filter_props_for_event (et : String) (props : PyDict)
    (keep_map : List (String × List String))
    (prop_rename_map : List (String × List (String × String))) : PyDict :=
  let keep :=
    match alookup keep_map et with
    | some l => l
    | Option.none =>
      match alookup keep_map "*" with
      | some l => l
      | Option.none => ["*"]
  let out :=
    if keep = ["*"] then props
    else keep.foldl (fun acc k =>
      if amem props k then ainsert acc k ((dget props k).getD .vnone) else acc) []
  let rmap := (alookup prop_rename_map et).getD []
  if rmap = [] then out
  else out.foldl (fun acc kv => ainsert acc ((alookup rmap kv.1).getD kv.1) kv.2) []

/-- A conditional rename rule: a `when` condition mapping and a target
event type (rename_to may be missing). -/
structure RenameRule where
  when : PyDict := []
  rename_to : Option String := Option.none

/-- First conditional rename rule whose rename_to is truthy and whose
condition matches the raw event (first match wins). -/
def firstRename (evt : RawEvent) : List RenameRule → Option String
  | [] => Option.none
  | r :: rest =>
    match r.rename_to with
    | some t => if t ≠ "" ∧ _match_conditions evt r.when then some t else firstRename evt rest
    | Option.none => firstRename evt rest

/-- The event type after the unconditional rename map and the conditional
rename rules (evaluated on the raw event, first satisfied rule wins). -/
def finalEventType (evt : RawEvent) (rename_map : List (String × String))
    (rename_rules : Option (List RenameRule)) : String :=
  let et := rename_event_type evt.event_type rename_map
  match rename_rules with
  | Option.none => et
  | some rules =>
    if rules.isEmpty then et
    else
      match firstRename evt rules with
      | some t => t
      | Option.none => et

/-- One entry of the EVENT_CONST_PROPERTIES mapping: a legacy flat value
(anything that is not a dict) or a scoped dict of constants. -/
inductive CEntry where
  | flat (v : PyVal)
  | scoped (g : List (String × PyVal))

/-- The constant-augmentation block of transform_event: merge legacy flat
keys (keys other than the wildcard and the current event type), then the
global wildcard object, then the event-scoped object, and write the merged
constants into the outgoing properties. -/
def applyConstProps (et : String) (const_props : Option (List (String × CEntry)))
    (props : PyDict) : PyDict :=
  match const_props with
  | Option.none => props
  | some cp =>
    if cp.isEmpty then props
    else
      let merged : PyDict := cp.foldl (fun acc kv =>
        match kv.2 with
        | CEntry.flat v => if kv.1 ≠ "*" ∧ kv.1 ≠ et then ainsert acc kv.1 v else acc
        | CEntry.scoped _ => acc) []
      let merged :=
        match alookup cp "*" with
        | some (CEntry.scoped g) => g.foldl (fun (acc : PyDict) (kv : String × PyVal) => ainsert acc kv.1 kv.2) merged
        | _ => merged
      let merged :=
        match alookup cp et with
        | some (CEntry.scoped g) => g.foldl (fun (acc : PyDict) (kv : String × PyVal) => ainsert acc kv.1 kv.2) merged
        | _ => merged
      merged.foldl (fun (acc : PyDict) (kv : String × PyVal) => ainsert acc kv.1 kv.2) props

/-- A derived-property rule: source path (from), value-mapping table (map),
type coercion (coerce), restricted expression (expr) and declared default.
Option.none on a field means the key is absent from the rule dict. -/
structure DRule where
  dfrom : Option String := Option.none
  dmap : Option (List (PyVal × PyVal)) := Option.none
  dcoerce : Option String := Option.none
  dexpr : Option Expr := Option.none
  ddefault : Option PyVal := Option.none

/-- One entry of the EVENT_DERIVED_PROPERTIES mapping: a legacy flat rule
or a scoped group of rules (the wildcard or per-event-type dicts). -/
inductive DEntry where
  | rule (r : DRule)
  | group (g : List (String × DRule))

/-- The ordered set of derived rules applicable to an event type: legacy
flat rules (with at least one of from, map or default), then the wildcard
group, then the event-scoped group, later entries overriding earlier ones
in dict-update order. -/
def derivedRulesFor (et : String) (derived_props : Option (List (String × DEntry))) :
    List (String × DRule) :=
  match derived_props with
  | Option.none => []
  | some dp =>
    if dp.isEmpty then []
    else
      let acc := dp.foldl (fun acc kv =>
        match kv.2 with
        | DEntry.rule r =>
          if (kv.1 ≠ "*" ∧ kv.1 ≠ et) ∧
              (r.dfrom.isSome || r.dmap.isSome || r.ddefault.isSome) = true
          then ainsert acc kv.1 r else acc
        | DEntry.group _ => acc) []
      let acc :=
        match alookup dp "*" with
        | some (DEntry.group g) => g.foldl (fun (a : List (String × DRule)) (kv : String × DRule) => ainsert a kv.1 kv.2) acc
        | _ => acc
      match alookup dp et with
      | some (DEntry.group g) => g.foldl (fun (a : List (String × DRule)) (kv : String × DRule) => ainsert a kv.1 kv.2) acc
      | _ => acc

/-- Lookup of a value in the mapping table of a rule, by Python equality
(mapping.get(val) guarded by `val in mapping`). -/
def lookupPy (m : List (PyVal × PyVal)) (val : PyVal) : Option PyVal :=
  match m with
  | [] => Option.none
  | (k, v) :: rest => if pyEq k val then some v else lookupPy rest val

/-- core._apply_expr: evaluate the restricted expression with `value`
bound; on any failure keep the original value. -/
def _apply_expr (expr : Expr) (value : PyVal) : PyVal :=
  match evalExpr expr value with
  | some v => v
  | Option.none => value

/-- The coercion step of a derived rule. A raised coercion error falls
back to the declared default of the rule, else None; an unknown coercion name
leaves the value unchanged, and a falsy coerce field skips the step. -/
def applyCoerce (rule : DRule) (val : PyVal) : PyVal :=
  match rule.dcoerce with
  | Option.none => val
  | some c =>
    if c = "" then val
    else if c = "int" then
      match val with
      | .vnone => (rule.ddefault).getD .vnone
      | .vstr s =>
        if pyStrip s = "" then (rule.ddefault).getD .vnone
        else
          match pyFloatOfString s with
          | some q => .vint (truncQ q)
          | Option.none => (rule.ddefault).getD .vnone
      | _ =>
        match pyFloatOf val with
        | some q => .vint (truncQ q)
        | Option.none => (rule.ddefault).getD .vnone
    else if c = "float" then
      match val with
      | .vnone => (rule.ddefault).getD .vnone
      | .vstr s =>
        if pyStrip s = "" then (rule.ddefault).getD .vnone
        else
          match pyFloatOfString s with
          | some q => .vfloat q
          | Option.none => (rule.ddefault).getD .vnone
      | _ =>
        match pyFloatOf val with
        | some q => .vfloat q
        | Option.none => (rule.ddefault).getD .vnone
    else if c = "bool" then
      match val with
      | .vstr s => .vbool (pyLower (pyStrip s) ∈ ["1", "true", "yes", "y"])
      | _ => .vbool (pyTruthy val)
    else if c = "str" then
      match val with
      | .vnone => .vstr ""
      | _ => .vstr (pyStr val)
    else val

/-- The unmapped part of the derived-rule loop: optional coercion, then
the optional expression on a non-None value, then the default when the
value is still None. -/
def applyDerivedTail (rule : DRule) (val0 : PyVal) : PyVal :=
  let val1 := applyCoerce rule val0
  let val2 :=
    match rule.dexpr with
    | some e => if isVNone val1 then val1 else _apply_expr e val1
    | Option.none => val1
  if isVNone val2 then (rule.ddefault).getD val2 else val2

/-- The body of the derived-rule loop in transform_event: resolve the
from path on the raw event, then the optional mapping. The membership
test `val in mapping` hashes the resolved value, so when a map table is
configured and the value is a list or dict it raises an uncaught
TypeError (core.py line 521 sits outside every try block), modelled as
Except.error. A mapped value skips coercion and expression; otherwise
coercion, expression and default apply in order, and the resulting value
is always written, even when None. -/
def applyDerivedRule (evt : RawEvent) (rule : DRule) : Except Unit PyVal :=
  let val0 :=
    match rule.dfrom with
    | some src => if src ≠ "" then _get_by_path evt src else .vnone
    | Option.none => .vnone
  match rule.dmap with
  | some m =>
    if pyUnhashable val0 then Except.error ()
    else
      match lookupPy m val0 with
      | some mv => Except.ok (if isVNone mv then (rule.ddefault).getD mv else mv)
      | Option.none => Except.ok (applyDerivedTail rule val0)
  | Option.none => Except.ok (applyDerivedTail rule val0)

/-- Apply the applicable derived rules in order, writing each result into
the accumulating properties and propagating the uncaught TypeError of the
mapping test. -/
def applyDerivedList (evt : RawEvent) :
    List (String × DRule) → PyDict → Except Unit PyDict
  | [], props => Except.ok props
  | (k, r) :: rest, props =>
    match applyDerivedRule evt r with
    | Except.ok v => applyDerivedList evt rest (ainsert props k v)
    | Except.error e => Except.error e

/-- The derived-augmentation block of transform_event. -/
def applyDerivedProps (evt : RawEvent) (et : String)
    (derived_props : Option (List (String × DEntry))) (props : PyDict) :
    Except Unit PyDict :=
  applyDerivedList evt (derivedRulesFor et derived_props) props

/-- The second-pass keep list of transform_event: the keep-map entry for
the event type, else the wildcard entry, else empty (meaning: no second
pass). -/
def allowedKeysFor (et : String) (keep_map : List (String × List String)) : List String :=
  match alookup keep_map et with
  | some l => l
  | Option.none =>
    match alookup keep_map "*" with
    | some l => l
    | Option.none => []

/-- The deny keys of transform_event: the event-type entry then the
wildcard entry of the property deny map, when that map is present and
non-empty. -/
def denyKeysFor (et : String) (prop_deny_map : Option (List (String × List String))) :
    List String :=
  match prop_deny_map with
  | Option.none => []
  | some m =>
    if m = [] then []
    else ((alookup m et).getD []) ++ ((alookup m "*").getD [])

/-- Pop each deny key from a dict. -/
def denyAll (d : PyDict) (ks : List String) : PyDict :=
  ks.foldl (fun acc k => aerase acc k) d

/-
core.transform_event. The result pairs the Python return value (the new
event dict, or None for a drop) with the state of the input event after
the call: when the outgoing user_properties is the original
non-empty dict (an alias, not a copy) and the second-pass keep filter did
not rebuild it, the deny-key pops at the end of the function mutate the
user_properties of the input event in place; every other write targets fresh
dicts. Two exceptions escape the body uncaught, both modelled as
Except.error: the TypeError of the derived mapping test on a list- or
dict-valued source value, and int(orig_time) on a non-numeric value. The
time_strategy and
original_times_as_properties parameters are accepted and ignored, exactly
as in the source, whose time block always prefers the client time field
and never consults the strategy.
-/

/-- The output-assembly tail of transform_event (user_properties choice,
top-level pass-through, core-field overrides, second-pass keep filter and
deny pops): builds the outgoing event and the state of the input event
after the call. The input event is only written through the alias that
new_evt["user_properties"] holds on the original non-empty
user_properties dict when the keep filter did not rebuild that dict: the
deny pops then act on the original. -/
def build_output (evt : RawEvent) (et : String) (props2 : PyDict)
    (user_id device_id : Option String) (out_time_ms : Int)
    (fallback_user_properties : Option PyDict)
    (keep_map : List (String × List String))
    (prop_deny_map : Option (List (String × List String))) :
    TransformedEvent × RawEvent :=
  let fallbackNE : Option PyDict :=
    match fallback_user_properties with
    | some f => if f.isEmpty then Option.none else some f
    | Option.none => Option.none
  let aliased : Bool :=
    match evt.user_properties with
    | some d => !d.isEmpty
    | Option.none => false
  let out_user_props : Option PyDict :=
    match evt.user_properties with
    | some d => if d.isEmpty then fallbackNE else some d
    | Option.none => fallbackNE
  let uprops0 : Option PyDict :=
    match out_user_props with
    | some o => some o
    | Option.none => evt.user_properties
  let allowed_keys := allowedKeysFor et keep_map
  let keepApplied : Bool := decide (allowed_keys ≠ [] ∧ allowed_keys ≠ ["*"])
  let eprops1 := if keepApplied then props2.filter (fun kv => kv.1 ∈ allowed_keys)
    else props2
  let uprops1 :=
    if keepApplied then uprops0.map (fun d => d.filter (fun kv => kv.1 ∈ allowed_keys))
    else uprops0
  let deny_keys := denyKeysFor et prop_deny_map
  let eprops2 := denyAll eprops1 deny_keys
  let uprops2 := uprops1.map (fun d => denyAll d deny_keys)
  let evtAfter :=
    if aliased && !keepApplied then
      { evt with user_properties := evt.user_properties.map (fun d => denyAll d deny_keys) }
    else evt
  ({ event_type := et
     event_properties := eprops2
     user_id := user_id
     device_id := device_id
     time := out_time_ms
     user_properties := uprops2
     groups := evt.groups
     extra := evt.extra }, evtAfter)

/-- core.transform_event, returning (result, input event after the call). -/
def transform_event (evt : RawEvent) (allow deny : List String)
    (rename_map : List (String × String))
    (keep_map : List (String × List String))
    (prop_rename_map : List (String × List (String × String)))
    (time_strategy : String) (original_times_as_properties : Bool)
    (force_user_id force_device_id : Option String)
    (fallback_user_properties : Option PyDict)
    (const_props : Option (List (String × CEntry)))
    (derived_props : Option (List (String × DEntry)))
    (rename_rules : Option (List RenameRule))
    (time_window_ms : Option (Int × Int))
    (prop_deny_map : Option (List (String × List String))) :
    Except Unit (Option TransformedEvent × RawEvent) :=
  if ¬ should_keep_event evt allow deny then Except.ok (Option.none, evt)
  else
    let original_et := evt.event_type
    let et := finalEventType evt rename_map rename_rules
    if original_et = "100ms_session_duration_v1.3" ∧ et = original_et then
      Except.ok (Option.none, evt)
    else
      let props_in := evt.event_properties.getD []
      let props0 := filter_props_for_event et props_in keep_map prop_rename_map
      let props1 := applyConstProps et const_props props0
      match applyDerivedProps evt et derived_props props1 with
      | Except.error _ => Except.error ()
      | Except.ok props2 =>
      let user_id :=
        match force_user_id with
        | some u => some u
        | Option.none => evt.user_id
      let device_id :=
        match force_device_id with
        | some d => some d
        | Option.none => evt.device_id
      let orig_time := pyOrVal (evt.time.map PyVal.vint)
        (pyOrVal (evt.server_received_time.map PyVal.vstr)
          (evt.server_upload_time.map PyVal.vstr))
      match orig_time with
      | Option.none => Except.ok (Option.none, evt)
      | some tv =>
        match pyIntOfVal tv with
        | Option.none => Except.error ()
        | some out_time_ms =>
          let windowed : Bool :=
            match time_window_ms with
            | some (ws, we) => decide (out_time_ms < ws ∨ out_time_ms ≥ we)
            | Option.none => false
          if windowed then Except.ok (Option.none, evt)
          else
            let be := build_output evt et props2 user_id device_id out_time_ms
              fallback_user_properties keep_map prop_deny_map
            Except.ok (some be.1, be.2)

/-- Run counters as a string-keyed mapping. -/
abbrev Counters := List (String × Nat)

/-- The _bump closure of apply_id_remap: counters[key] = counters.get(key, 0) + 1. -/
def bump (c : Counters) (k : String) : Counters :=
  ainsert c k (((alookup c k).getD 0) + 1)

/-- core.apply_id_remap on an outbound event: remap user_id and device_id
according to scope and the unmapped policy, incrementing counters; both
identifier branches run before the drop decision, and a drop bumps the
aggregate events_dropped_unmapped counter once and returns None. The
preserve_original_ids parameter is accepted and unused, exactly as in the
source (its body is commented out). -/
def apply_id_remap (evt : TransformedEvent)
    (user_map device_map : Option (List (String × String)))
    (scope : String) (preserve_original_ids : Bool) (unmapped_policy : String)
    (counters : Counters) : Option TransformedEvent × Counters :=
  let step1 : TransformedEvent × Counters × Bool :=
    if scope = "user_id" ∨ scope = "both" then
      match user_map with
      | Option.none => (evt, counters, false)
      | some um =>
        match evt.user_id with
        | Option.none => (evt, bump counters "id_remap_user_id_missing", false)
        | some uid =>
          match alookup um uid with
          | some nu => ({ evt with user_id := some nu },
              bump counters "events_remapped_user_id", false)
          | Option.none => (evt, bump counters "unmapped_user_ids_seen",
              unmapped_policy = "drop")
    else (evt, counters, false)
  let step2 : TransformedEvent × Counters × Bool :=
    let (evt1, c1, drop1) := step1
    if scope = "device_id" ∨ scope = "both" then
      match device_map with
      | Option.none => (evt1, c1, drop1)
      | some dm =>
        match evt1.device_id with
        | Option.none => (evt1, bump c1 "id_remap_device_id_missing", drop1)
        | some did =>
          match alookup dm did with
          | some nd => ({ evt1 with device_id := some nd },
              bump c1 "events_remapped_device_id", drop1)
          | Option.none => (evt1, bump c1 "unmapped_device_ids_seen",
              drop1 ∨ unmapped_policy = "drop")
    else (evt1, c1, drop1)
  let (evt2, c2, drop2) := step2
  if drop2 then (Option.none, bump c2 "events_dropped_unmapped")
  else (some evt2, c2)

/-- The outcome of core.send_batch: the parsed acknowledgment is abstracted
to the number of attempts made and the sleeps performed; a fatal outcome
carries the status that caused the raise. -/
inductive SendResult where
  | success (attempts : Nat) (sleeps : List ℚ)
  | fatal (attempts : Nat) (sleeps : List ℚ) (status : Nat)
deriving DecidableEq, Repr

/-- requests.Response.ok: status code below 400. -/
def respOk (status : Nat) : Bool := status < 400

/-- The retryable status set of send_batch. -/
def retryable (status : Nat) : Bool :=
  status = 408 ∨ status = 429 ∨ status = 500 ∨ status = 502 ∨ status = 503 ∨ status = 504

/-- The while-True loop of core.send_batch. statuses gives the response
status of each attempt (1-based), jitter the random.random() drawn before
each sleep; the sleep before retrying attempt n+1 is backoff ** n plus the
jitter, tries counts attempts so far. -/
def send_batch_go (statuses : Nat → Nat) (jitter : Nat → ℚ) (backoff : ℚ)
    (max_retries : Nat) (tries : Nat) (sleeps : List ℚ) : SendResult :=
  let t := tries + 1
  let s := statuses t
  if respOk s then SendResult.success t sleeps
  else if h : retryable s ∧ t < max_retries then
    send_batch_go statuses jitter backoff max_retries t (sleeps ++ [backoff ^ t + jitter t])
  else SendResult.fatal t sleeps s
termination_by max_retries - tries
decreasing_by omega

/-- core.send_batch with the destination status sequence and the jitter
source as parameters. -/
def send_batch (statuses : Nat → Nat) (jitter : Nat → ℚ) (backoff : ℚ)
    (max_retries : Nat) : SendResult :=
  send_batch_go statuses jitter backoff max_retries 0 []

/-
Theorems. Each claim of the specification gets one theorem below, with a
witness instantiation when the theorem carries hypotheses and a
counterexample where the code departs from the claim.
-/

/-- A destination that answers 503 on the first two attempts and 200 from
the third on. -/
def statusesTwo503 : Nat → Nat := fun n => if n ≤ 2 then 503 else 200

/-- A destination that answers 503 forever. -/
def statusesAll503 : Nat → Nat := fun _ => 503

lemma send_batch_two503 (j : Nat → ℚ) (b : ℚ) :
    send_batch statusesTwo503 j b 5 = SendResult.success 3 [b ^ 1 + j 1, b ^ 2 + j 2] := by
  rw [send_batch, send_batch_go, send_batch_go, send_batch_go]
  norm_num [statusesTwo503, respOk, retryable]

lemma send_batch_all503 (j : Nat → ℚ) (b : ℚ) :
    send_batch statusesAll503 j b 3 = SendResult.fatal 3 [b ^ 1 + j 1, b ^ 2 + j 2] 503 := by
  rw [send_batch, send_batch_go, send_batch_go, send_batch_go]
  norm_num [statusesAll503, respOk, retryable]

/-- C5 (amended): with 503 on the first two attempts and 200 on the third
and max_retries = 5, send_batch sleeps exactly twice, the n-th sleep being
backoff ^ n plus the n-th jitter draw, and succeeds on the third attempt;
the two sleep durations are strictly increasing whenever the backoff base
is at least 2 (with jitter in [0,1) this need not hold for smaller bases
such as the default 1.5). With 503 forever and max_retries = 3, exactly 3
attempts are made and the outcome is a raised failure carrying status
503. -/
theorem send_batch_retry_contract (j : Nat → ℚ) (b : ℚ)
    (hj : ∀ n, 0 ≤ j n ∧ j n < 1) (hb : 2 ≤ b) :
    send_batch statusesTwo503 j b 5 = SendResult.success 3 [b ^ 1 + j 1, b ^ 2 + j 2]
    ∧ b ^ 1 + j 1 < b ^ 2 + j 2
    ∧ send_batch statusesAll503 j b 3 = SendResult.fatal 3 [b ^ 1 + j 1, b ^ 2 + j 2] 503 := by
  refine ⟨send_batch_two503 j b, ?_, send_batch_all503 j b⟩
  have h1 := hj 1
  have h2 := hj 2
  nlinarith [h1.1, h1.2, h2.1, h2.2]

/-- C5 witness at backoff base 2 and constant jitter one half. -/
theorem send_batch_retry_contract_witness :
    send_batch statusesTwo503 (fun _ => (1 : ℚ) / 2) 2 5
      = SendResult.success 3 [2 ^ 1 + 1 / 2, 2 ^ 2 + 1 / 2]
    ∧ (2 : ℚ) ^ 1 + 1 / 2 < 2 ^ 2 + 1 / 2
    ∧ send_batch statusesAll503 (fun _ => (1 : ℚ) / 2) 2 3
      = SendResult.fatal 3 [2 ^ 1 + 1 / 2, 2 ^ 2 + 1 / 2] 503 :=
  send_batch_retry_contract (fun _ => (1 : ℚ) / 2) 2
    (fun _ => by norm_num) (by norm_num)

/-- C5 counterexample: at the default backoff base 1.5 with admissible
jitter draws 9/10 then 0, the two sleep durations are 2.4 and 2.25, which
are not strictly increasing, refuting the unconditional strictly
increasing part of the claim. -/
theorem send_batch_sleeps_cex :
    (0 ≤ (9 : ℚ) / 10 ∧ (9 : ℚ) / 10 < 1) ∧
    send_batch statusesTwo503 (fun n => if n = 1 then (9 : ℚ) / 10 else 0) (3 / 2) 5
      = SendResult.success 3 [12 / 5, 9 / 4]
    ∧ ¬ List.Chain' (fun a b => a < b) [(12 : ℚ) / 5, 9 / 4] := by
  refine ⟨by norm_num, ?_, ?_⟩
  · rw [send_batch_two503]
    norm_num
  · intro h
    have := List.chain'_cons.mp h
    norm_num at this

/-- C6: with unmapped_policy drop and an event whose user_id is missing
from the user map, (a) under scope user_id the event is dropped, the
unmapped counter and the aggregate dropped counter are each bumped exactly
once and the device branch is never consulted, even when the device map
would have matched; (b) under scope both the device identifier is still
evaluated and its remap counter bumped before the drop is applied, and
the aggregate dropped counter is bumped exactly once. -/
theorem id_remap_unmapped_drop (evt : TransformedEvent)
    (um dm : List (String × String)) (c : Counters)
    (u d nd : String) (pre : Bool)
    (hu : evt.user_id = some u) (hum : alookup um u = Option.none)
    (hd : evt.device_id = some d) (hdm : alookup dm d = some nd) :
    apply_id_remap evt (some um) (some dm) "user_id" pre "drop" c
      = (Option.none, bump (bump c "unmapped_user_ids_seen") "events_dropped_unmapped")
    ∧ apply_id_remap evt (some um) (some dm) "both" pre "drop" c
      = (Option.none,
          bump (bump (bump c "unmapped_user_ids_seen") "events_remapped_device_id")
            "events_dropped_unmapped") := by
  constructor
  · unfold apply_id_remap
    simp [hu, hum]
  · unfold apply_id_remap
    simp [hu, hum, hd, hdm]

/-- C6 witness: concrete event u1 with a user map that misses it and a
device map that would match. -/
theorem id_remap_unmapped_drop_witness :
    apply_id_remap
      { event_type := "e", event_properties := [], user_id := some "u1",
        device_id := some "d1", time := 5, user_properties := Option.none,
        groups := Option.none, extra := [] }
      (some [("other", "o2")]) (some [("d1", "D1")]) "user_id" true "drop" []
      = (Option.none, bump (bump [] "unmapped_user_ids_seen") "events_dropped_unmapped")
    ∧ apply_id_remap
      { event_type := "e", event_properties := [], user_id := some "u1",
        device_id := some "d1", time := 5, user_properties := Option.none,
        groups := Option.none, extra := [] }
      (some [("other", "o2")]) (some [("d1", "D1")]) "both" true "drop" []
      = (Option.none,
          bump (bump (bump [] "unmapped_user_ids_seen") "events_remapped_device_id")
            "events_dropped_unmapped") :=
  id_remap_unmapped_drop
    { event_type := "e", event_properties := [], user_id := some "u1",
      device_id := some "d1", time := 5, user_properties := Option.none,
      groups := Option.none, extra := [] }
    [("other", "o2")] [("d1", "D1")] [] "u1" "d1" "D1" true rfl rfl rfl rfl

lemma build_output_time (evt : RawEvent) (et : String) (props2 : PyDict)
    (u d : Option String) (t : Int) (fup : Option PyDict)
    (km : List (String × List String)) (pdm : Option (List (String × List String))) :
    (build_output evt et props2 u d t fup km pdm).1.time = t := rfl

lemma build_output_snd (evt : RawEvent) (et : String) (props2 : PyDict)
    (u d : Option String) (t : Int) (fup : Option PyDict)
    (km : List (String × List String)) (pdm : Option (List (String × List String))) :
    (build_output evt et props2 u d t fup km pdm).2 = evt
    ∨ (build_output evt et props2 u d t fup km pdm).2 = { evt with user_properties := Option.map (fun dd => denyAll dd (denyKeysFor et pdm)) evt.user_properties } := by
  unfold build_output
  dsimp only
  split
  · exact Or.inr rfl
  · exact Or.inl rfl

lemma transform_event_not_kept (evt : RawEvent) (allow deny : List String)
    (rm : List (String × String)) (km : List (String × List String))
    (prm : List (String × List (String × String)))
    (ts : String) (otap : Bool) (fu fd : Option String)
    (fup : Option PyDict) (cp : Option (List (String × CEntry)))
    (dp : Option (List (String × DEntry))) (rr : Option (List RenameRule))
    (twm : Option (Int × Int)) (pdm : Option (List (String × List String)))
    (h : should_keep_event evt allow deny = false) :
    transform_event evt allow deny rm km prm ts otap fu fd fup cp dp rr twm pdm
      = Except.ok (Option.none, evt) := by
  unfold transform_event
  simp [h]

lemma transform_event_never_emits_without_time (evt : RawEvent) (allow deny : List String)
    (rm : List (String × String)) (km : List (String × List String))
    (prm : List (String × List (String × String)))
    (ts : String) (otap : Bool) (fu fd : Option String)
    (fup : Option PyDict) (cp : Option (List (String × CEntry)))
    (dp : Option (List (String × DEntry))) (rr : Option (List RenameRule))
    (twm : Option (Int × Int)) (pdm : Option (List (String × List String)))
    (h0 : evt.time = Option.none ∨ evt.time = some 0)
    (h1 : evt.server_received_time = Option.none)
    (h2 : evt.server_upload_time = Option.none) :
    transform_event evt allow deny rm km prm ts otap fu fd fup cp dp rr twm pdm
      = Except.ok (Option.none, evt)
    ∨ transform_event evt allow deny rm km prm ts otap fu fd fup cp dp rr twm pdm
      = Except.error () := by
  unfold transform_event
  dsimp only
  rcases h0 with h0 | h0 <;> rw [h0, h1, h2] <;> split
  · exact Or.inl rfl
  · split
    · exact Or.inl rfl
    · split
      · exact Or.inr rfl
      · left
        simp [pyOrVal, pyTruthy]
  · exact Or.inl rfl
  · split
    · exact Or.inl rfl
    · split
      · exact Or.inr rfl
      · left
        simp [pyOrVal, pyTruthy]

lemma transform_event_drops_without_time (evt : RawEvent) (allow deny : List String)
    (rm : List (String × String)) (km : List (String × List String))
    (prm : List (String × List (String × String)))
    (ts : String) (otap : Bool) (fu fd : Option String)
    (fup : Option PyDict) (cp : Option (List (String × CEntry)))
    (dp : Option (List (String × DEntry))) (rr : Option (List RenameRule))
    (twm : Option (Int × Int)) (pdm : Option (List (String × List String)))
    (h0 : evt.time = Option.none ∨ evt.time = some 0)
    (h1 : evt.server_received_time = Option.none)
    (h2 : evt.server_upload_time = Option.none)
    (hD : (applyDerivedProps evt (finalEventType evt rm rr) dp
      (applyConstProps (finalEventType evt rm rr) cp
        (filter_props_for_event (finalEventType evt rm rr) (evt.event_properties.getD [])
          km prm))).isOk = true) :
    transform_event evt allow deny rm km prm ts otap fu fd fup cp dp rr twm pdm
      = Except.ok (Option.none, evt) := by
  unfold transform_event
  dsimp only
  rcases h0 with h0 | h0 <;> rw [h0, h1, h2] <;> split
  · rfl
  · split
    · rfl
    · split
      · exfalso
        rename_i hE
        rw [hE] at hD
        simp [Except.isOk, Except.toBool] at hD
      · simp [pyOrVal, pyTruthy]
  · rfl
  · split
    · rfl
    · split
      · exfalso
        rename_i hE
        rw [hE] at hD
        simp [Except.isOk, Except.toBool] at hD
      · simp [pyOrVal, pyTruthy]

lemma transform_event_time_client (evt : RawEvent) (allow deny : List String)
    (rm : List (String × String)) (km : List (String × List String))
    (prm : List (String × List (String × String)))
    (ts : String) (otap : Bool) (fu fd : Option String)
    (fup : Option PyDict) (cp : Option (List (String × CEntry)))
    (dp : Option (List (String × DEntry))) (rr : Option (List RenameRule))
    (twm : Option (Int × Int)) (pdm : Option (List (String × List String)))
    (t : Int) (ht : evt.time = some t) (hnz : t ≠ 0) :
    ∀ r e2, transform_event evt allow deny rm km prm ts otap fu fd fup cp dp rr twm pdm
      = Except.ok (some r, e2) → r.time = t := by
  intro r e2 h
  unfold transform_event at h
  rw [ht] at h
  have hTr : pyTruthy (PyVal.vint t) = true := by simp [pyTruthy, hnz]
  simp only [Option.map_some', pyOrVal, hTr, if_true, pyIntOfVal] at h
  repeat' split at h
  all_goals simp only [Except.ok.injEq, Prod.mk.injEq, Option.some.injEq, reduceCtorEq,
    false_and, and_false] at h
  all_goals rw [← h.1, build_output_time]

lemma transform_event_state (evt : RawEvent) (allow deny : List String)
    (rm : List (String × String)) (km : List (String × List String))
    (prm : List (String × List (String × String)))
    (ts : String) (otap : Bool) (fu fd : Option String)
    (fup : Option PyDict) (cp : Option (List (String × CEntry)))
    (dp : Option (List (String × DEntry))) (rr : Option (List RenameRule))
    (twm : Option (Int × Int)) (pdm : Option (List (String × List String))) :
    ∀ r e2, transform_event evt allow deny rm km prm ts otap fu fd fup cp dp rr twm pdm
      = Except.ok (r, e2) →
      e2 = evt ∨ e2 = { evt with user_properties := Option.map (fun dd => denyAll dd (denyKeysFor (finalEventType evt rm rr) pdm)) evt.user_properties } := by
  intro r e2 h
  unfold transform_event at h
  dsimp only at h
  repeat' split at h
  all_goals simp only [Except.ok.injEq, Prod.mk.injEq, reduceCtorEq, false_and, and_false] at h
  all_goals first
    | exact Or.inl h.2.symm
    | (rw [← h.2]; exact build_output_snd evt (finalEventType evt rm rr) _ _ _ _ fup km pdm)

lemma should_keep_event_deny (evt : RawEvent) (allow deny : List String)
    (h : evt.event_type ∈ deny) : should_keep_event evt allow deny = false := by
  unfold should_keep_event
  simp [h, List.ne_nil_of_mem h]

lemma should_keep_event_allow (evt : RawEvent) (allow deny : List String)
    (h1 : allow ≠ []) (h2 : evt.event_type ∉ allow) :
    should_keep_event evt allow deny = false := by
  unfold should_keep_event
  simp [h1, h2]

/-- C3: an event whose original type is in the deny list is dropped by
transform_event whatever the allow list holds; and with a non-empty allow
list, an event whose original type is absent from it is dropped. Both
checks run on the original event type, before any renaming (the deny list
first). -/
theorem deny_allow_filtering (evt : RawEvent) (allow deny : List String)
    (rm : List (String × String)) (km : List (String × List String))
    (prm : List (String × List (String × String)))
    (ts : String) (otap : Bool) (fu fd : Option String)
    (fup : Option PyDict) (cp : Option (List (String × CEntry)))
    (dp : Option (List (String × DEntry))) (rr : Option (List RenameRule))
    (twm : Option (Int × Int)) (pdm : Option (List (String × List String))) :
    (evt.event_type ∈ deny →
      transform_event evt allow deny rm km prm ts otap fu fd fup cp dp rr twm pdm
        = Except.ok (Option.none, evt))
    ∧ (allow ≠ [] → evt.event_type ∉ allow →
      transform_event evt allow deny rm km prm ts otap fu fd fup cp dp rr twm pdm
        = Except.ok (Option.none, evt)) :=
  ⟨fun h => transform_event_not_kept evt allow deny rm km prm ts otap fu fd fup cp dp rr twm pdm
      (should_keep_event_deny evt allow deny h),
   fun h1 h2 => transform_event_not_kept evt allow deny rm km prm ts otap fu fd fup cp dp rr twm pdm
      (should_keep_event_allow evt allow deny h1 h2)⟩

/-- C3 witness: a denied type is dropped even though the allow list also
carries it, and a type missing from a non-empty allow list is dropped. -/
theorem deny_allow_filtering_witness :
    transform_event { event_type := "bad", time := some 1 } ["bad"] ["bad"] [] [] [] "client" true
      Option.none Option.none Option.none Option.none Option.none Option.none Option.none Option.none
      = Except.ok (Option.none, { event_type := "bad", time := some 1 })
    ∧ transform_event { event_type := "b", time := some 1 } ["a"] [] [] [] [] "client" true
      Option.none Option.none Option.none Option.none Option.none Option.none Option.none Option.none
      = Except.ok (Option.none, { event_type := "b", time := some 1 }) :=
  ⟨(deny_allow_filtering { event_type := "bad", time := some 1 } ["bad"] ["bad"] [] [] [] "client"
      true Option.none Option.none Option.none Option.none Option.none Option.none Option.none
      Option.none).1 (by decide),
   (deny_allow_filtering { event_type := "b", time := some 1 } ["a"] [] [] [] [] "client"
      true Option.none Option.none Option.none Option.none Option.none Option.none Option.none
      Option.none).2 (by decide) (by decide)⟩

/-- C9: an event whose original type is exactly 100ms_session_duration_v1.3
is dropped whenever the rename stages leave its type unchanged, regardless
of the filter outcome and of any usable timestamp. -/
theorem session_duration_rename_guard (evt : RawEvent) (allow deny : List String)
    (rm : List (String × String)) (km : List (String × List String))
    (prm : List (String × List (String × String)))
    (ts : String) (otap : Bool) (fu fd : Option String)
    (fup : Option PyDict) (cp : Option (List (String × CEntry)))
    (dp : Option (List (String × DEntry))) (rr : Option (List RenameRule))
    (twm : Option (Int × Int)) (pdm : Option (List (String × List String)))
    (h1 : evt.event_type = "100ms_session_duration_v1.3")
    (h2 : finalEventType evt rm rr = evt.event_type) :
    transform_event evt allow deny rm km prm ts otap fu fd fup cp dp rr twm pdm
      = Except.ok (Option.none, evt) := by
  unfold transform_event
  by_cases hk : should_keep_event evt allow deny
  · simp [hk, h1, h2]
  · simp [hk]

/-- C9 witness: a 100ms_session_duration_v1.3 event with a passing filter
and a usable timestamp is still dropped when no rename applies. -/
theorem session_duration_rename_guard_witness :
    transform_event { event_type := "100ms_session_duration_v1.3", time := some 7 } [] [] [] [] []
      "client" true Option.none Option.none Option.none Option.none Option.none Option.none
      Option.none Option.none
      = Except.ok (Option.none, { event_type := "100ms_session_duration_v1.3", time := some 7 }) :=
  session_duration_rename_guard { event_type := "100ms_session_duration_v1.3", time := some 7 }
    [] [] [] [] [] "client" true Option.none Option.none Option.none Option.none Option.none
    Option.none Option.none Option.none rfl rfl

/-- C1 (amended): the strategy table is implemented by choose_time_ms,
where strategy server_received resolves to the parsed server_received
timestamp when present (and non-zero), before any client time; but
transform_event never consults the strategy: whenever it emits an event
and the raw client time is a non-zero int, the outbound time equals that
client time, under every strategy string. -/
theorem time_strategy_table_and_transform_preference :
    (∀ (parse : String → Option Int) (now : Int) (evt : RawEvent) (sv : String) (m : Int),
      evt.server_received_time = some sv → parse sv = some m → m ≠ 0 →
      choose_time_ms parse now evt "server_received" = m)
    ∧ (∀ (evt : RawEvent) (allow deny : List String)
      (rm : List (String × String)) (km : List (String × List String))
      (prm : List (String × List (String × String)))
      (ts : String) (otap : Bool) (fu fd : Option String)
      (fup : Option PyDict) (cp : Option (List (String × CEntry)))
      (dp : Option (List (String × DEntry))) (rr : Option (List RenameRule))
      (twm : Option (Int × Int)) (pdm : Option (List (String × List String)))
      (t : Int) (r : TransformedEvent) (e2 : RawEvent),
      evt.time = some t → t ≠ 0 →
      transform_event evt allow deny rm km prm ts otap fu fd fup cp dp rr twm pdm
        = Except.ok (some r, e2) →
      r.time = t) := by
  constructor
  · intro parse now evt sv m h1 h2 h3
    have hred : choose_time_ms parse now evt "server_received"
        = pyOrInt (evt.server_received_time.bind parse) (pyOrInt evt.time now) := rfl
    rw [hred, h1]
    simp [Option.bind, h2, pyOrInt, h3]
  · intro evt allow deny rm km prm ts otap fu fd fup cp dp rr twm pdm t r e2 ht hnz h
    exact transform_event_time_client evt allow deny rm km prm ts otap fu fd fup cp dp rr twm
      pdm t ht hnz r e2 h

/-- C1 witness: the resolver at strategy server_received with a parsed
server time 2000, and a transformed event whose client time 5 survives as
the outbound time. -/
theorem time_strategy_table_and_transform_preference_witness :
    choose_time_ms (fun _ => some 2000) 777
      { event_type := "a", server_received_time := some "1970-01-01T00:00:02Z" }
      "server_received" = 2000
    ∧ TransformedEvent.time
        { event_type := "a", event_properties := [], user_id := Option.none,
          device_id := Option.none, time := 5, user_properties := Option.none,
          groups := Option.none, extra := [] } = 5 :=
  ⟨time_strategy_table_and_transform_preference.1 (fun _ => some 2000) 777
      { event_type := "a", server_received_time := some "1970-01-01T00:00:02Z" }
      "1970-01-01T00:00:02Z" 2000 rfl rfl (by norm_num),
   time_strategy_table_and_transform_preference.2
      { event_type := "a", time := some 5 } [] [] [] [] [] "server_received" true
      Option.none Option.none Option.none Option.none Option.none Option.none Option.none
      Option.none 5
      { event_type := "a", event_properties := [], user_id := Option.none,
        device_id := Option.none, time := 5, user_properties := Option.none,
        groups := Option.none, extra := [] }
      { event_type := "a", time := some 5 } rfl (by norm_num) rfl⟩

/-- C1 counterexample: under strategy server_received, an event carrying
both a client time 1000 and a server_received_time that parses to 2000 is
transformed with outbound time 1000, not the server milliseconds the
claim requires: transform_event ignores the strategy. -/
theorem transform_ignores_server_received_strategy_cex :
    choose_time_ms (fun s => if s = "1970-01-01T00:00:02Z" then some 2000 else Option.none) 777
      { event_type := "a", time := some 1000,
        server_received_time := some "1970-01-01T00:00:02Z" } "server_received" = 2000
    ∧ transform_event
      { event_type := "a", time := some 1000,
        server_received_time := some "1970-01-01T00:00:02Z" }
      [] [] [] [] [] "server_received" true Option.none Option.none Option.none Option.none
      Option.none Option.none Option.none Option.none
      = Except.ok
          (some
            { event_type := "a", event_properties := [], user_id := Option.none,
              device_id := Option.none, time := 1000, user_properties := Option.none,
              groups := Option.none, extra := [] },
            { event_type := "a", time := some 1000,
              server_received_time := some "1970-01-01T00:00:02Z" })
    ∧ (1000 : Int) ≠ 2000 :=
  ⟨rfl, rfl, by norm_num⟩

/-- C10 (amended): a client time of 0 is falsy in transform_event, so an
event with time 0 and both server time fields absent is never emitted
with time 0: it is dropped, or the call raises the uncaught TypeError of
a derived map-table rule before the time check; whenever the derived
stage succeeds the event is exactly dropped. With time 0 and a present
but unparsable server string the call instead raises at int(orig_time)
(shown on a concrete event). The resolver skips a zero client time in
favor of the next fallback in every strategy except client, whose branch
tests only for None and returns the zero itself. -/
theorem zero_client_time_drop_and_resolver :
    (∀ (evt : RawEvent) (allow deny : List String)
      (rm : List (String × String)) (km : List (String × List String))
      (prm : List (String × List (String × String)))
      (ts : String) (otap : Bool) (fu fd : Option String)
      (fup : Option PyDict) (cp : Option (List (String × CEntry)))
      (dp : Option (List (String × DEntry))) (rr : Option (List RenameRule))
      (twm : Option (Int × Int)) (pdm : Option (List (String × List String))),
      evt.time = some 0 → evt.server_received_time = Option.none →
      evt.server_upload_time = Option.none →
      transform_event evt allow deny rm km prm ts otap fu fd fup cp dp rr twm pdm
        = Except.ok (Option.none, evt)
      ∨ transform_event evt allow deny rm km prm ts otap fu fd fup cp dp rr twm pdm
        = Except.error ())
    ∧ (∀ (evt : RawEvent) (allow deny : List String)
      (rm : List (String × String)) (km : List (String × List String))
      (prm : List (String × List (String × String)))
      (ts : String) (otap : Bool) (fu fd : Option String)
      (fup : Option PyDict) (cp : Option (List (String × CEntry)))
      (dp : Option (List (String × DEntry))) (rr : Option (List RenameRule))
      (twm : Option (Int × Int)) (pdm : Option (List (String × List String))),
      evt.time = some 0 → evt.server_received_time = Option.none →
      evt.server_upload_time = Option.none →
      (applyDerivedProps evt (finalEventType evt rm rr) dp
        (applyConstProps (finalEventType evt rm rr) cp
          (filter_props_for_event (finalEventType evt rm rr) (evt.event_properties.getD [])
            km prm))).isOk = true →
      transform_event evt allow deny rm km prm ts otap fu fd fup cp dp rr twm pdm
        = Except.ok (Option.none, evt))
    ∧ transform_event
      { event_type := "a", time := some 0, server_received_time := some "garbage" }
      [] [] [] [] [] "client" true Option.none Option.none Option.none Option.none
      Option.none Option.none Option.none Option.none
      = Except.error ()
    ∧ (∀ (parse : String → Option Int) (now : Int) (evt : RawEvent) (strategy : String),
      evt.time = some 0 →
      evt.server_received_time.bind parse = Option.none →
      evt.server_upload_time.bind parse = Option.none →
      pyLower strategy ≠ "client" →
      choose_time_ms parse now evt strategy = now) := by
  refine ⟨?_, ?_, rfl, ?_⟩
  · intro evt allow deny rm km prm ts otap fu fd fup cp dp rr twm pdm h0 h1 h2
    exact transform_event_never_emits_without_time evt allow deny rm km prm ts otap fu fd fup
      cp dp rr twm pdm (Or.inr h0) h1 h2
  · intro evt allow deny rm km prm ts otap fu fd fup cp dp rr twm pdm h0 h1 h2 hD
    exact transform_event_drops_without_time evt allow deny rm km prm ts otap fu fd fup cp dp
      rr twm pdm (Or.inr h0) h1 h2 hD
  · intro parse now evt strategy h0 h1 h2 h3
    by_cases hstrat : strategy = ""
    · have hred : choose_time_ms parse now evt ""
          = pyOrInt evt.time (pyOrInt (evt.server_received_time.bind parse) now) := rfl
      rw [hstrat, hred, h0, h1]
      simp [pyOrInt]
    · unfold choose_time_ms
      rw [if_neg hstrat, h0, h1, h2]
      dsimp only
      split_ifs with c1 c2 c3 c4 c5 <;> simp_all [pyOrInt]

/-- C10 witness: an event with time 0 and no server fields is never
emitted and, the derived stage trivially succeeding, exactly dropped; the
resolver under strategy server_received falls through a zero client time
to the wall clock. -/
theorem zero_client_time_drop_and_resolver_witness :
    (transform_event { event_type := "a", time := some 0 } [] [] [] [] [] "client" true
      Option.none Option.none Option.none Option.none Option.none Option.none Option.none
      Option.none
      = Except.ok (Option.none, { event_type := "a", time := some 0 })
    ∨ transform_event { event_type := "a", time := some 0 } [] [] [] [] [] "client" true
      Option.none Option.none Option.none Option.none Option.none Option.none Option.none
      Option.none
      = Except.error ())
    ∧ transform_event { event_type := "a", time := some 0 } [] [] [] [] [] "client" true
      Option.none Option.none Option.none Option.none Option.none Option.none Option.none
      Option.none
      = Except.ok (Option.none, { event_type := "a", time := some 0 })
    ∧ choose_time_ms (fun _ => Option.none) 777 { event_type := "a", time := some 0 }
      "server_received" = 777 :=
  ⟨zero_client_time_drop_and_resolver.1 { event_type := "a", time := some 0 } [] [] [] [] []
      "client" true Option.none Option.none Option.none Option.none Option.none Option.none
      Option.none Option.none rfl rfl rfl,
   zero_client_time_drop_and_resolver.2.1 { event_type := "a", time := some 0 } [] [] [] [] []
      "client" true Option.none Option.none Option.none Option.none Option.none Option.none
      Option.none Option.none rfl rfl rfl rfl,
   zero_client_time_drop_and_resolver.2.2.2 (fun _ => Option.none) 777
      { event_type := "a", time := some 0 } "server_received" rfl rfl rfl (by decide)⟩

/-- C10 counterexample: under strategy client the resolver returns a zero
client time as is instead of skipping it in favor of the fallback (the
wall clock, here 777). -/
theorem resolver_client_strategy_zero_cex :
    choose_time_ms (fun _ => Option.none) 777 { event_type := "a", time := some 0 } "client" = 0
    ∧ (0 : Int) ≠ 777 :=
  ⟨rfl, by norm_num⟩

lemma applyCoerce_int_42 (dflt : Option PyVal) :
    applyCoerce
      { dfrom := some "event_properties.count", dcoerce := some "int", ddefault := dflt }
      (PyVal.vstr "42") = PyVal.vint 42 := by
  unfold applyCoerce
  dsimp only
  simp only [show pyStrip "42" = "42" from rfl,
    show pyFloatOfString "42" = some ((1 : ℚ) * ((42 : Nat) : ℚ)) from rfl]
  norm_num [truncQ]
  simp

lemma applyCoerce_int_abc (dflt : Option PyVal) :
    applyCoerce
      { dfrom := some "event_properties.count", dcoerce := some "int", ddefault := dflt }
      (PyVal.vstr "abc") = dflt.getD PyVal.vnone := by
  unfold applyCoerce
  dsimp only
  simp only [show pyStrip "abc" = "abc" from rfl,
    show pyFloatOfString "abc" = Option.none from rfl]
  norm_num
  simp

/-- C4 (amended): a derived rule with coerce int turns the string 42 into
the integer 42; a failing int coercion on the string abc falls back to the
declared default 0; but a failure of the restricted expression keeps the
resolved value unchanged (the declared default applies only when the value
is null), and no coercion or expression failure ever aborts the event:
each of these rules yields an ordinary Except.ok value (only the mapping
test of a map-table rule can raise). -/
theorem derived_coercion_and_expr_fallback :
    (∀ (evt : RawEvent) (dflt : Option PyVal),
      _get_by_path evt "event_properties.count" = PyVal.vstr "42" →
      applyDerivedRule evt
        { dfrom := some "event_properties.count", dcoerce := some "int", ddefault := dflt }
        = Except.ok (PyVal.vint 42))
    ∧ (∀ evt : RawEvent,
      _get_by_path evt "event_properties.count" = PyVal.vstr "abc" →
      applyDerivedRule evt
        { dfrom := some "event_properties.count", dcoerce := some "int",
          ddefault := some (PyVal.vint 0) }
        = Except.ok (PyVal.vint 0))
    ∧ (∀ (evt : RawEvent) (v : PyVal) (e : Expr),
      _get_by_path evt "event_properties.x" = v → isVNone v = false →
      evalExpr e v = Option.none →
      applyDerivedRule evt
        { dfrom := some "event_properties.x", dexpr := some e, ddefault := some (PyVal.vint 0) }
        = Except.ok v) := by
  refine ⟨?_, ?_, ?_⟩
  · intro evt dflt h
    unfold applyDerivedRule applyDerivedTail
    simp [h, applyCoerce_int_42, isVNone]
  · intro evt h
    unfold applyDerivedRule applyDerivedTail
    simp [h, applyCoerce_int_abc, isVNone]
  · intro evt v e h hv he
    unfold applyDerivedRule applyDerivedTail
    simp [h, hv, _apply_expr, he, applyCoerce]

/-- C4 witness: the three rule behaviors at concrete events. -/
theorem derived_coercion_and_expr_fallback_witness :
    applyDerivedRule { event_type := "a", event_properties := some [("count", PyVal.vstr "42")] }
      { dfrom := some "event_properties.count", dcoerce := some "int", ddefault := Option.none }
      = Except.ok (PyVal.vint 42)
    ∧ applyDerivedRule
      { event_type := "a", event_properties := some [("count", PyVal.vstr "abc")] }
      { dfrom := some "event_properties.count", dcoerce := some "int",
        ddefault := some (PyVal.vint 0) }
      = Except.ok (PyVal.vint 0)
    ∧ applyDerivedRule { event_type := "a", event_properties := some [("x", PyVal.vstr "abc")] }
      { dfrom := some "event_properties.x",
        dexpr := some (Expr.add Expr.value (Expr.lit (PyVal.vint 1))),
        ddefault := some (PyVal.vint 0) }
      = Except.ok (PyVal.vstr "abc") :=
  ⟨derived_coercion_and_expr_fallback.1
      { event_type := "a", event_properties := some [("count", PyVal.vstr "42")] }
      Option.none rfl,
   derived_coercion_and_expr_fallback.2.1
      { event_type := "a", event_properties := some [("count", PyVal.vstr "abc")] } rfl,
   derived_coercion_and_expr_fallback.2.2
      { event_type := "a", event_properties := some [("x", PyVal.vstr "abc")] }
      (PyVal.vstr "abc") (Expr.add Expr.value (Expr.lit (PyVal.vint 1))) rfl rfl rfl⟩

/-- C4 counterexample: a derived rule whose expression value + 1 fails on
the string abc and which declares default 0 writes the unchanged string
abc, not the default, refuting the claim that expression failures fall
back to the declared default. -/
theorem derived_expr_failure_keeps_value_cex :
    evalExpr (Expr.add Expr.value (Expr.lit (PyVal.vint 1))) (PyVal.vstr "abc") = Option.none
    ∧ transform_event
      { event_type := "a", time := some 1000,
        event_properties := some [("x", PyVal.vstr "abc")] }
      [] [] [] [] [] "client" true Option.none Option.none Option.none Option.none
      (some [("*", DEntry.group [("d",
        { dfrom := some "event_properties.x",
          dexpr := some (Expr.add Expr.value (Expr.lit (PyVal.vint 1))),
          ddefault := some (PyVal.vint 0) })])])
      Option.none Option.none Option.none
      = Except.ok
          (some
            { event_type := "a",
              event_properties := [("x", PyVal.vstr "abc"), ("d", PyVal.vstr "abc")],
              user_id := Option.none, device_id := Option.none, time := 1000,
              user_properties := Option.none, groups := Option.none, extra := [] },
            { event_type := "a", time := some 1000,
              event_properties := some [("x", PyVal.vstr "abc")] })
    ∧ PyVal.vstr "abc" ≠ PyVal.vint 0 ∧ PyVal.vstr "abc" ≠ PyVal.vnone :=
  ⟨rfl, rfl, fun h => PyVal.noConfusion h, fun h => PyVal.noConfusion h⟩

/-- C7 (amended): transform_event is idempotent whenever no property deny
keys apply to the final event type: the call leaves the input event
unchanged and a second application returns the same result. In general
the deny pops mutate the user_properties of the input event through the alias,
and a second application can differ (see the counterexample). -/
theorem transform_idempotent_without_deny (evt : RawEvent) (allow deny : List String)
    (rm : List (String × String)) (km : List (String × List String))
    (prm : List (String × List (String × String)))
    (ts : String) (otap : Bool) (fu fd : Option String)
    (fup : Option PyDict) (cp : Option (List (String × CEntry)))
    (dp : Option (List (String × DEntry))) (rr : Option (List RenameRule))
    (twm : Option (Int × Int)) (pdm : Option (List (String × List String)))
    (hd : denyKeysFor (finalEventType evt rm rr) pdm = [])
    (r : Option TransformedEvent) (e2 : RawEvent)
    (h : transform_event evt allow deny rm km prm ts otap fu fd fup cp dp rr twm pdm
      = Except.ok (r, e2)) :
    e2 = evt
    ∧ transform_event e2 allow deny rm km prm ts otap fu fd fup cp dp rr twm pdm
      = Except.ok (r, e2) := by
  rcases transform_event_state evt allow deny rm km prm ts otap fu fd fup cp dp rr twm pdm
    r e2 h with he | he
  · exact ⟨he, he ▸ h⟩
  · have he2 : e2 = evt := by
      rw [he, hd]
      simp [denyAll]
    exact ⟨he2, he2 ▸ h⟩

/-- C7 witness: with no deny map configured, a concrete transform leaves
the input unchanged and is idempotent. -/
theorem transform_idempotent_without_deny_witness :
    ({ event_type := "a", time := some 2 } : RawEvent)
      = { event_type := "a", time := some 2 }
    ∧ transform_event { event_type := "a", time := some 2 } [] [] [] [] [] "client" true
      Option.none Option.none Option.none Option.none Option.none Option.none Option.none
      Option.none
      = Except.ok
          (some
            { event_type := "a", event_properties := [], user_id := Option.none,
              device_id := Option.none, time := 2, user_properties := Option.none,
              groups := Option.none, extra := [] },
            { event_type := "a", time := some 2 }) :=
  transform_idempotent_without_deny { event_type := "a", time := some 2 } [] [] [] [] []
    "client" true Option.none Option.none Option.none Option.none Option.none Option.none
    Option.none Option.none rfl
    (some
      { event_type := "a", event_properties := [], user_id := Option.none,
        device_id := Option.none, time := 2, user_properties := Option.none,
        groups := Option.none, extra := [] })
    { event_type := "a", time := some 2 } rfl

/-- C7 counterexample: with a wildcard deny key secret and a derived rule
reading user_properties.secret, the first call pops secret from the input
user_properties dict of the input event through the alias, so the second call
resolves the derived value to null instead of 1: the two results differ. -/
theorem transform_not_idempotent_cex :
    transform_event
      { event_type := "a", time := some 1000,
        user_properties := some [("secret", PyVal.vint 1)] }
      [] [] [] [] [] "client" true Option.none Option.none Option.none Option.none
      (some [("*", DEntry.group [("d", { dfrom := some "user_properties.secret" })])])
      Option.none Option.none (some [("*", ["secret"])])
      = Except.ok
          (some
            { event_type := "a", event_properties := [("d", PyVal.vint 1)],
              user_id := Option.none, device_id := Option.none, time := 1000,
              user_properties := some [], groups := Option.none, extra := [] },
            { event_type := "a", time := some 1000, user_properties := some [] })
    ∧ transform_event
      { event_type := "a", time := some 1000, user_properties := some [] }
      [] [] [] [] [] "client" true Option.none Option.none Option.none Option.none
      (some [("*", DEntry.group [("d", { dfrom := some "user_properties.secret" })])])
      Option.none Option.none (some [("*", ["secret"])])
      = Except.ok
          (some
            { event_type := "a", event_properties := [("d", PyVal.vnone)],
              user_id := Option.none, device_id := Option.none, time := 1000,
              user_properties := some [], groups := Option.none, extra := [] },
            { event_type := "a", time := some 1000, user_properties := some [] })
    ∧ ({ event_type := "a", event_properties := [("d", PyVal.vint 1)],
         user_id := Option.none, device_id := Option.none, time := 1000,
         user_properties := some [], groups := Option.none, extra := [] } : TransformedEvent)
      ≠ { event_type := "a", event_properties := [("d", PyVal.vnone)],
          user_id := Option.none, device_id := Option.none, time := 1000,
          user_properties := some [], groups := Option.none, extra := [] } :=
  ⟨rfl, rfl, by simp⟩

/-- C8 (amended): transform_event never changes any field of the input
event other than user_properties; user_properties too is unchanged
whenever no property deny keys apply to the final event type. When deny
keys do apply and the outgoing user_properties aliases the original
non-empty dict, the denied keys are removed from the input in place (see
the counterexample). -/
theorem transform_preserves_input_fields (evt : RawEvent) (allow deny : List String)
    (rm : List (String × String)) (km : List (String × List String))
    (prm : List (String × List (String × String)))
    (ts : String) (otap : Bool) (fu fd : Option String)
    (fup : Option PyDict) (cp : Option (List (String × CEntry)))
    (dp : Option (List (String × DEntry))) (rr : Option (List RenameRule))
    (twm : Option (Int × Int)) (pdm : Option (List (String × List String)))
    (r : Option TransformedEvent) (e2 : RawEvent)
    (h : transform_event evt allow deny rm km prm ts otap fu fd fup cp dp rr twm pdm
      = Except.ok (r, e2)) :
    e2.event_type = evt.event_type ∧ e2.event_properties = evt.event_properties
    ∧ e2.groups = evt.groups ∧ e2.user_id = evt.user_id ∧ e2.device_id = evt.device_id
    ∧ e2.time = evt.time ∧ e2.server_received_time = evt.server_received_time
    ∧ e2.server_upload_time = evt.server_upload_time ∧ e2.extra = evt.extra
    ∧ (denyKeysFor (finalEventType evt rm rr) pdm = [] → e2 = evt) := by
  rcases transform_event_state evt allow deny rm km prm ts otap fu fd fup cp dp rr twm pdm
    r e2 h with he | he <;> subst he
  · exact ⟨rfl, rfl, rfl, rfl, rfl, rfl, rfl, rfl, rfl, fun _ => rfl⟩
  · refine ⟨rfl, rfl, rfl, rfl, rfl, rfl, rfl, rfl, rfl, fun hd => ?_⟩
    rw [hd]
    simp [denyAll]

/-- C8 witness: a concrete transform with no deny map returns the input
event untouched. -/
theorem transform_preserves_input_fields_witness :
    RawEvent.event_type { event_type := "a", time := some 3 }
      = RawEvent.event_type { event_type := "a", time := some 3 }
    ∧ ({ event_type := "a", time := some 3 } : RawEvent)
      = { event_type := "a", time := some 3 } :=
  ⟨(transform_preserves_input_fields { event_type := "a", time := some 3 } [] [] [] [] []
      "client" true Option.none Option.none Option.none Option.none Option.none Option.none
      Option.none Option.none
      (some
        { event_type := "a", event_properties := [], user_id := Option.none,
          device_id := Option.none, time := 3, user_properties := Option.none,
          groups := Option.none, extra := [] })
      { event_type := "a", time := some 3 } rfl).1,
   (transform_preserves_input_fields { event_type := "a", time := some 3 } [] [] [] [] []
      "client" true Option.none Option.none Option.none Option.none Option.none Option.none
      Option.none Option.none
      (some
        { event_type := "a", event_properties := [], user_id := Option.none,
          device_id := Option.none, time := 3, user_properties := Option.none,
          groups := Option.none, extra := [] })
      { event_type := "a", time := some 3 } rfl).2.2.2.2.2.2.2.2.2 rfl⟩

/-- C8 counterexample: with a wildcard deny key secret, transform_event
removes secret from the user_properties dict of the input event: the input
after the call differs from the input before it, refuting immutability as
claimed. -/
theorem transform_mutates_user_properties_cex :
    transform_event
      { event_type := "a", time := some 1000,
        user_properties := some [("secret", PyVal.vint 1)] }
      [] [] [] [] [] "client" true Option.none Option.none Option.none Option.none
      Option.none Option.none Option.none (some [("*", ["secret"])])
      = Except.ok
          (some
            { event_type := "a", event_properties := [], user_id := Option.none,
              device_id := Option.none, time := 1000, user_properties := some [],
              groups := Option.none, extra := [] },
            { event_type := "a", time := some 1000, user_properties := some [] })
    ∧ ({ event_type := "a", time := some 1000, user_properties := some [] } : RawEvent)
      ≠ { event_type := "a", time := some 1000,
          user_properties := some [("secret", PyVal.vint 1)] } :=
  ⟨rfl, by simp⟩

end AmplitudeMigration
